import Mathlib

/-
Verification development for the wp-pon scaffolding tool.

The tool (a Deno/TypeScript CLI) collects a configuration from CLI flags,
interactive prompts and defaults, renders five output files from fixed
templates (one dynamic dotenv template processed by the npm dedent function,
four static templates), writes them, and marks the installer script
executable via an external chmod command.

This file gives a shallow embedding of that program:
  - the npm dedent tagged-template function is modelled over character
    lists (interpolation, minimum-indent computation, indent stripping,
    whitespace trimming), following the published dedent implementation;
  - the template literals are transcribed from the source; the JavaScript
    raw-string escapes that dedent itself undoes before any other
    processing (a backslash before a dollar sign denotes a plain dollar
    sign) are pre-applied in the transcription, since Lean string literals
    have no such escapes; literal brace characters are written with the
    hex escapes \x7b and \x7d, and literal apostrophes with \x27;
  - the posix path resolution and basename helpers of the std path library
    are modelled for slash-separated paths (segment splitting, removal of
    empty and dot segments, dot-dot popping), which covers every use the
    program makes of them;
  - the prompt function is modelled as an oracle argument returning the
    entered line, or none for a non-interactive session;
  - the effectful main pipeline is modelled as a function from oracles for
    directory creation, file writes and the chmod command to the list of
    performed external effects plus the process exit code.
-/

set_option maxRecDepth 100000

namespace WpPon

/-- Whitespace as matched by the JavaScript regular expression class used by
dedent; only the ASCII members can occur in the embedded templates. -/
def jsWs (c : Char) : Bool :=
  c == ' ' || c == '\t' || c == '\n' || c == '\r' || c == '\x0b' || c == '\x0c'

/-- Prepend a character to the first chunk of a split result, starting a fresh
chunk if there is none. -/
def consHead (c : Char) : List (List Char) → List (List Char)
  | [] => [[c]]
  | l :: ls => (c :: l) :: ls

/-- Split a character list at every occurrence of the separator, keeping empty
chunks, as the JavaScript string split method does. -/
def splitOnChar (sep : Char) : List Char → List (List Char)
  | [] => [[]]
  | c :: cs =>
    if c == sep then [] :: splitOnChar sep cs
    else consHead c (splitOnChar sep cs)

/-- Join chunks with a separator character, the inverse of splitOnChar and the
model of the JavaScript join method. -/
def joinSep (sep : Char) : List (List Char) → List Char
  | [] => []
  | [s] => s
  | s :: s' :: rest => s ++ sep :: joinSep sep (s' :: rest)

/-- Join a list of lines with newline characters into a string; used to write
the multi-line template literals of the source readably. -/
def linesJoin (ls : List String) : String :=
  ⟨joinSep '\n' (ls.map String.data)⟩

/-- Interpolation step of a tagged template: concatenate the raw pieces with
the interpolated values between them, as characters. -/
def interleave : List String → List String → List Char
  | [], _ => []
  | s :: ss, [] => s.data ++ interleave ss []
  | s :: ss, v :: vs => s.data ++ v.data ++ interleave ss vs

/-- Indentation of a line as seen by the dedent regular expression: the length
of the leading whitespace run, provided it is non-empty and followed by at
least one non-whitespace character. -/
def lineIndent (l : List Char) : Option Nat :=
  let n := (l.takeWhile jsWs).length
  if 0 < n ∧ n < l.length then some n else none

/-- Accumulation of the minimum indent; the source treats an accumulated zero
like an unset accumulator (JavaScript falsiness), mirrored here even though a
recorded indent is always positive. -/
def minIndentStep (acc : Option Nat) (ind : Nat) : Option Nat :=
  match acc with
  | none => some ind
  | some 0 => some ind
  | some a => some (min a ind)

/-- Minimum indentation over all lines that match the indent pattern. -/
def minIndent (lines : List (List Char)) : Option Nat :=
  lines.foldl
    (fun acc l =>
      match lineIndent l with
      | none => acc
      | some i => minIndentStep acc i)
    none

/-- Strip the computed indent from one line: dedent slices off the first m
characters whenever the line starts with a space or a tab. -/
def dedentLine (m : Nat) (l : List Char) : List Char :=
  match l with
  | [] => []
  | c :: rest => if c == ' ' || c == '\t' then (c :: rest).drop m else c :: rest

/-- The JavaScript trim method: remove whitespace from both ends. -/
def jsTrim (l : List Char) : List Char :=
  ((l.dropWhile jsWs).reverse.dropWhile jsWs).reverse

/-- Indent stripping and trimming applied by dedent after interpolation. -/
def dedentChars (cs : List Char) : List Char :=
  let lines := splitOnChar '\n' cs
  let stripped :=
    match minIndent lines with
    | none => cs
    | some m => joinSep '\n' (lines.map (dedentLine m))
  jsTrim stripped

/-- The npm dedent tagged-template function applied to raw pieces and
interpolated values. The escape undoing that dedent performs on the raw
pieces is pre-applied in the piece literals of this file. -/
def dedent (pieces values : List String) : String :=
  ⟨dedentChars (interleave pieces values)⟩

/-- Whether pat begins the list s. -/
def leadsList : List Char → List Char → Bool
  | [], _ => true
  | _ :: _, [] => false
  | a :: as, b :: bs => a == b && leadsList as bs

/-- Whether pat occurs contiguously anywhere in s. -/
def occursIn (pat : List Char) : List Char → Bool
  | [] => leadsList pat []
  | c :: rest => leadsList pat (c :: rest) || occursIn pat rest

/-- Configuration record filled in by the resolver, from the EnvConfig type
of the source. -/
structure EnvConfig where
  projectName : String
  wpVersion : String
  wpPort : String
  wpPlugins : String
deriving DecidableEq

/-- The dotenv template of the source: dedent applied to the raw pieces of
the template literal with the four configuration fields interpolated. -/
def createDotEnvTemplate (config : EnvConfig) : String :=
  dedent
    [ linesJoin ["", "    # .env", "", "    # Project Settings", "    PROJECT_NAME="],
      linesJoin ["", "", "    # WordPress Settings", "    WP_VERSION="],
      linesJoin ["", "    WP_PORT="],
      linesJoin ["", "    WP_PLUGINS=\""],
      "\"" ++ linesJoin
        ["", "", "    # Database Settings", "    MYSQL_DATABASE=wordpress",
         "    MYSQL_USER=wordpress", "    MYSQL_PASSWORD=your_strong_password",
         "    MYSQL_ROOT_PASSWORD=your_strong_root_password", "  "] ]
    [config.projectName, config.wpVersion, config.wpPort, config.wpPlugins]

/-- The configuration named by the demonstration claim. -/
def demoConfig : EnvConfig :=
  { projectName := "demo", wpVersion := "6.4", wpPort := "9090",
    wpPlugins := "query-monitor acf" }

/-- A line of a dotenv file that is a variable assignment: non-empty, not a
comment line, and containing an equals sign. -/
def isAssignLine : List Char → Bool
  | [] => false
  | c :: rest => !(c == '#') && (c :: rest).contains '='

/-- The lines of the rendered dotenv content for a configuration. -/
def dotEnvLines (c : EnvConfig) : List String :=
  (splitOnChar '\n' (createDotEnvTemplate c).data).map String.mk

/-- Raw text of the docker-compose template literal, transcribed line by line
from the source; the backslash-dollar escapes of the source raw string denote
plain dollar signs after the escape undoing performed by dedent. -/
def dockerComposeRaw : String :=
  linesJoin
    [ "",
      "  name: \x27$\x7bPROJECT_NAME\x7d\x27",
      "",
      "  services:",
      "    db:",
      "      image: mysql:8.0",
      "      container_name: $\x7bPROJECT_NAME\x7d-db",
      "      restart: always",
      "      environment:",
      "        MYSQL_ROOT_PASSWORD: $\x7bMYSQL_ROOT_PASSWORD\x7d",
      "        MYSQL_DATABASE: $\x7bMYSQL_DATABASE\x7d",
      "        MYSQL_USER: $\x7bMYSQL_USER\x7d",
      "        MYSQL_PASSWORD: $\x7bMYSQL_PASSWORD\x7d",
      "      volumes:",
      "        - db_data:/var/lib/mysql",
      "      networks:",
      "        - wordpress_net",
      "",
      "    wordpress:",
      "      image: wordpress:$\x7bWP_VERSION:-latest\x7d",
      "      container_name: $\x7bPROJECT_NAME\x7d-wordpress",
      "      restart: always",
      "      depends_on:",
      "        - db",
      "      ports:",
      "        - \"$\x7bWP_PORT:-8080\x7d:80\"",
      "      environment:",
      "        WORDPRESS_DB_HOST: db:3306",
      "        WORDPRESS_DB_USER: $\x7bMYSQL_USER\x7d",
      "        WORDPRESS_DB_PASSWORD: $\x7bMYSQL_PASSWORD\x7d",
      "        WORDPRESS_DB_NAME: $\x7bMYSQL_DATABASE\x7d",
      "        WORDPRESS_TABLE_PREFIX: wp_",
      "        WP_PLUGINS: $\x7bWP_PLUGINS\x7d",
      "      volumes:",
      "        - wp_data:/var/www/html",
      "        - ./src:/var/www/html/wp-content/themes/current",
      "        - ./.pon/init-plugins.sh:/docker-entrypoint-initwp.d/init-plugins.sh",
      "        - ./.pon/uploads.ini:/usr/local/etc/php/conf.d/uploads.ini",
      "        - ./.pon/timeouts.conf:/etc/apache2/conf-enabled/timeouts.conf",
      "      networks:",
      "        - wordpress_net",
      "",
      "  volumes:",
      "    db_data:",
      "    wp_data:",
      "",
      "  networks:",
      "    wordpress_net:",
      "      name: \x27$\x7bPROJECT_NAME\x7d_net\x27",
      "" ]

/-- The docker-compose template constant of the source: a dedent tagged
template with no interpolated values. -/
def dockerComposeTemplate : String := dedent [dockerComposeRaw] []

/-- Raw text of the plugin-installer script template literal; every dollar
sign in the source raw string is escaped with a backslash, undone by
dedent. -/
def initPluginsRaw : String :=
  linesJoin
    [ "",
      "  #!/bin/bash",
      "  # init-plugins.sh",
      "  set -e",
      "  read -r -a PLUGINS_TO_INSTALL <<< \"$\x7bWP_PLUGINS:-\x7d\"",
      "  PLUGIN_DIR=\"/var/www/html/wp-content/plugins\"",
      "  for plugin_slug in \"$\x7bPLUGINS_TO_INSTALL[@]\x7d\"; do",
      "    if [ -n \"$plugin_slug\" ]; then",
      "      if [ ! -d \"$PLUGIN_DIR/$plugin_slug\" ]; then",
      "        echo \">>> Installing plugin: $plugin_slug\"",
      "        wget -q -O \"/tmp/$plugin_slug.zip\" \"https://downloads.wordpress.org/plugin/$plugin_slug.latest-stable.zip\"",
      "        if [ $? -eq 0 ]; then",
      "          unzip -q \"/tmp/$plugin_slug.zip\" -d \"$PLUGIN_DIR\"",
      "          rm \"/tmp/$plugin_slug.zip\"",
      "          echo \">>> Plugin $plugin_slug installed successfully.\"",
      "        else",
      "          echo \">>> Failed to download plugin: $plugin_slug\"",
      "        fi",
      "      else",
      "        echo \">>> Plugin $plugin_slug is already installed.\"",
      "      fi",
      "    fi",
      "  done",
      "  echo \">>> All specified plugins have been processed.\"",
      "" ]

/-- The plugin-installer script template constant of the source. -/
def initPluginsScriptTemplate : String := dedent [initPluginsRaw] []

/-- Raw text of the PHP upload tuning template literal. -/
def uploadsIniRaw : String :=
  linesJoin
    [ "",
      "  ; PHP設定: ファイルアップロードと実行時間制限の緩和",
      "  ; このファイルはdocker-compose.ymlによってコンテナ内にマウントされます",
      "",
      "  file_uploads = On",
      "",
      "  ; アップロードファイルサイズの上限 (1TB)",
      "  ; PHPのini設定では\x27T\x27が使えない場合が多いため、1024Gと記述するのが安全です",
      "",
      "  upload_max_filesize = 1024G",
      "",
      "  ; POSTデータ全体の上限",
      "  post_max_size = 1024G",
      "",
      "  ; スクリプトの最大実行時間（秒）",
      "  max_execution_time = 3600",
      "",
      "  ; POSTデータパースの最大時間（秒）",
      "  max_input_time = -1",
      "",
      "  ; PHPが使用できるメモリ上限",
      "  ; 巨大なファイルを扱う際はメモリも多く消費するため、無制限にしておくと安心です",
      "  memory_limit = -1",
      "" ]

/-- The PHP upload tuning template constant of the source. -/
def uploadsIniTemplate : String := dedent [uploadsIniRaw] []

/-- Raw text of the webserver timeout tuning template literal. -/
def timeoutsConfRaw : String :=
  linesJoin
    [ "",
      "  # Don\x27t limit body.",
      "  LimitRequestBody 0",
      "",
      "  # Don\x27t limit execution time.",
      "  TimeOut 3600",
      "",
      "  # ",
      "  RequestReadTimeout header=0 body=0",
      "" ]

/-- The webserver timeout tuning template constant of the source. -/
def timeoutsConfTemplate : String := dedent [timeoutsConfRaw] []

/-- Raw text of the usage template literal printed by showHelp. -/
def helpTextRaw : String :=
  linesJoin
    [ "",
      "        WP-Pon: A tool to quickly set up a WordPress development environment.",
      "",
      "        Usage:",
      "          deno run --allow-all main.ts [directory] [options]",
      "",
      "        Description:",
      "          This script interactively sets up a Docker-based WordPress environment.",
      "          It generates docker-compose.yml, .env, and other necessary configuration files.",
      "",
      "        Arguments:",
      "          [directory]         The directory to create the project in. Defaults to the current directory.",
      "",
      "        Options:",
      "          -h, --help                Show this help message.",
      "          -n, --name <name> Set the project name. Defaults to the directory name.",
      "          -v, --version <version>   Set the WordPress version (e.g., \"latest\", \"6.4\"). Defaults to \"latest\".",
      "          -p, --port <port>         Set the public port for WordPress. Defaults to \"8080\".",
      "          -e, --plugins <slugs>     A space-separated string of plugin slugs to install (e.g., \"query-monitor advanced-custom-fields\").",
      "    " ]

/-- The usage text printed by the showHelp function of the source. -/
def helpText : String := dedent [helpTextRaw] []

/-- Whether a path is absolute in the posix path model: it starts with a
slash. -/
def isAbs (p : String) : Bool := p.data.head? == some '/'

/-- A path segment that plain normalization keeps unchanged: non-empty, not a
dot or dot-dot segment, and containing no separator. -/
def goodSeg (s : List Char) : Bool :=
  decide (s ≠ [] ∧ s ≠ ['.'] ∧ s ≠ ['.', '.'] ∧ '/' ∉ s)

/-- One step of posix path normalization over segments: drop empty and dot
segments, pop the accumulator on dot-dot, append anything else. -/
def normStep (acc : List (List Char)) (seg : List Char) : List (List Char) :=
  if seg = [] ∨ seg = ['.'] then acc
  else if seg = ['.', '.'] then acc.dropLast
  else acc ++ [seg]

/-- Normalization of a rooted segment list. -/
def normalizeSegs (segs : List (List Char)) : List (List Char) :=
  segs.foldl normStep []

/-- Resolution of a path against an absolute working directory, over
characters: an absolute argument stands alone, a relative one is joined to
the working directory, and the result is normalized and rooted. -/
def resolveChars (cwd p : List Char) : List Char :=
  let full := if p.head? == some '/' then p else cwd ++ '/' :: p
  '/' :: joinSep '/' (normalizeSegs (splitOnChar '/' full))

/-- The std path resolve function as used by the source, modelled for a
process whose working directory is absolute. -/
def pathResolve (cwd p : String) : String := ⟨resolveChars cwd.data p.data⟩

/-- The std path basename function modelled for slash-separated paths: the
last non-empty segment, or the empty string when there is none. -/
def basename (p : String) : String :=
  ⟨(((splitOnChar '/' p.data).filter (fun s => !s.isEmpty)).getLast?).getD []⟩

/-- The std path join of two components as used by the source, where the
components are plain names joined to an already resolved directory. -/
def pathJoin (a b : String) : String := a ++ "/" ++ b

/-- An absolute path already in normal form: rooted, with every segment kept
unchanged by normalization. Working directories reported by the runtime have
this shape. -/
def isNormalizedAbs (p : String) : Bool :=
  match p.data with
  | c :: rest => c == '/' && (splitOnChar '/' rest).all goodSeg
  | [] => false

/-- Parsed command-line arguments as consumed by collectUserConfig: the first
positional argument and the string flags, each absent when not given, and the
help flag. -/
structure Args where
  positional : Option String
  name : Option String
  version : Option String
  port : Option String
  plugins : Option String
  help : Bool
deriving DecidableEq

/-- The configuration returned by collectUserConfig: the EnvConfig fields
plus the resolved project directory. -/
structure ResolvedConfig extends EnvConfig where
  projectDir : String
deriving DecidableEq

/-- The collectUserConfig function of the source. The prompt oracle maps a
message and a shown default to the entered answer, or none when the session
is non-interactive; the nullish-coalescing chains of the source become
orElse chains over options. -/
def collectUserConfig (pr : String → String → Option String) (cwd : String)
    (args : Args) : ResolvedConfig :=
  let dirArg := ((args.positional.orElse fun _ => args.name).getD ".")
  let projectDir := pathResolve cwd dirArg
  let defaultProjectName := basename projectDir
  let projectName :=
    ((args.name.orElse fun _ =>
        pr "Enter project name:" defaultProjectName).getD defaultProjectName)
  let wpVersion :=
    ((args.version.orElse fun _ =>
        pr "Enter WordPress version:" "latest").getD "latest")
  let wpPort :=
    ((args.port.orElse fun _ => pr "Enter public port:" "8080").getD "8080")
  let wpPlugins := args.plugins.getD ""
  { projectName := projectName, wpVersion := wpVersion, wpPort := wpPort,
    wpPlugins := wpPlugins, projectDir := projectDir }

/-- A file to create: target path and rendered content, from the
FileDefinition type of the source. -/
structure FileDefinition where
  name : String
  content : String
deriving DecidableEq

/-- The filesToCreate list built in main: the five output files with their
rendered contents. -/
def filesToCreate (userConfig : ResolvedConfig) : List FileDefinition :=
  [ { name := pathJoin userConfig.projectDir ".env",
      content := createDotEnvTemplate userConfig.toEnvConfig },
    { name := pathJoin userConfig.projectDir "docker-compose.yml",
      content := dockerComposeTemplate },
    { name := pathJoin (pathJoin userConfig.projectDir ".pon") "init-plugins.sh",
      content := initPluginsScriptTemplate },
    { name := pathJoin (pathJoin userConfig.projectDir ".pon") "uploads.ini",
      content := uploadsIniTemplate },
    { name := pathJoin (pathJoin userConfig.projectDir ".pon") "timeouts.conf",
      content := timeoutsConfTemplate } ]

/-- External effects performed by a run: directory creations, file writes and
the chmod invocation, each with the success reported by its oracle, plus the
usage text printed on the help path. -/
inductive Event where
  | mkdir (p : String) (ok : Bool)
  | write (p : String) (ok : Bool)
  | chmod (p : String) (ok : Bool)
  | print (s : String)
deriving DecidableEq

/-- Outcome of a run: the external effects in program order and the process
exit code. -/
structure RunResult where
  events : List Event
  exitCode : Nat
deriving DecidableEq

/-- The main function of the source over effect oracles. The help flag short
circuits everything. Directory creation failures abort before any write. The
five writes are all issued in one batch; when any of them fails the catch
block exits with code one and the chmod step is never reached; when all
succeed, chmod runs on the installer script and its failure also exits with
code one. Console log lines other than the usage text are not modelled. -/
def runMain (md wr : String → Bool) (ch : Bool)
    (pr : String → String → Option String) (cwd : String) (args : Args) :
    RunResult :=
  cond args.help
    { events := [Event.print helpText], exitCode := 0 }
    (let userConfig := collectUserConfig pr cwd args
     let ponDir := pathJoin userConfig.projectDir ".pon"
     let srcDir := pathJoin userConfig.projectDir "src"
     cond (md ponDir)
       (cond (md srcDir)
         (let files := filesToCreate userConfig
          let writeEvents := files.map fun fd => Event.write fd.name (wr fd.name)
          let base := Event.mkdir ponDir true :: Event.mkdir srcDir true :: writeEvents
          cond (files.all fun fd => wr fd.name)
            { events := base ++ [Event.chmod (pathJoin ponDir "init-plugins.sh") ch],
              exitCode := cond ch 0 1 }
            { events := base, exitCode := 1 })
         { events := [Event.mkdir ponDir true, Event.mkdir srcDir false],
           exitCode := 1 })
       { events := [Event.mkdir ponDir false], exitCode := 1 })

end WpPon

namespace MainTs

/-- The dotenv template of the second source variant (src/main.ts): its
template literal is transcribed separately; the raw pieces coincide with
those of the first variant character for character. -/
def createDotEnvTemplate (config : WpPon.EnvConfig) : String :=
  WpPon.dedent
    [ WpPon.linesJoin ["", "    # .env", "", "    # Project Settings", "    PROJECT_NAME="],
      WpPon.linesJoin ["", "", "    # WordPress Settings", "    WP_VERSION="],
      WpPon.linesJoin ["", "    WP_PORT="],
      WpPon.linesJoin ["", "    WP_PLUGINS=\""],
      "\"" ++ WpPon.linesJoin
        ["", "", "    # Database Settings", "    MYSQL_DATABASE=wordpress",
         "    MYSQL_USER=wordpress", "    MYSQL_PASSWORD=your_strong_password",
         "    MYSQL_ROOT_PASSWORD=your_strong_root_password", "  "] ]
    [config.projectName, config.wpVersion, config.wpPort, config.wpPlugins]

end MainTs

namespace WpPon

/-- A prompt oracle for a non-interactive session: every prompt is
unanswered. -/
def promptNone : String → String → Option String := fun _ _ => none

/-- A prompt oracle for a user who answers custom to every question. -/
def promptCustom : String → String → Option String := fun _ _ => some "custom"

/-- An invocation with no positional argument and no flags. -/
def noFlags : Args :=
  { positional := none, name := none, version := none, port := none,
    plugins := none, help := false }

/-- An invocation giving only the name flag. -/
def nameOnlyArgs : Args := { noFlags with name := some "demo" }

/-- An invocation giving only the positional directory argument. -/
def posOnlyArgs : Args := { noFlags with positional := some "proj" }

/-- An invocation giving only the help flag. -/
def helpArgs : Args := { noFlags with help := true }

/-- A directory-creation oracle for which every creation succeeds. -/
def mdAll : String → Bool := fun _ => true

/-- A write oracle for which every write succeeds. -/
def wrAll : String → Bool := fun _ => true

/-- A write oracle for which exactly the dotenv file write fails. -/
def wrFailEnv : String → Bool := fun s => !(s == "/home/user/.env")

/-- A concrete resolved configuration used to instantiate theorems. -/
def demoResolved : ResolvedConfig :=
  { demoConfig with projectDir := "/home/user/demo" }

/-- The consHead helper never returns the empty list. -/
theorem consHead_ne_nil (c : Char) (ls : List (List Char)) : consHead c ls ≠ [] := by
  cases ls <;> simp [consHead]

/-- Splitting always yields at least one chunk. -/
theorem splitOnChar_ne_nil (sep : Char) (l : List Char) : splitOnChar sep l ≠ [] := by
  cases l with
  | nil => simp [splitOnChar]
  | cons c cs =>
    by_cases hc : c == sep
    · simp [splitOnChar, hc]
    · simp only [splitOnChar, hc, Bool.false_eq_true, if_false]
      exact consHead_ne_nil c _

/-- Splitting a list that starts with the separator emits a leading empty
chunk. -/
theorem splitOnChar_cons_sep (sep : Char) (cs : List Char) :
    splitOnChar sep (sep :: cs) = [] :: splitOnChar sep cs := by
  simp [splitOnChar]

/-- Splitting distributes over concatenation at a separator. -/
theorem splitOnChar_append (sep : Char) (a b : List Char) :
    splitOnChar sep (a ++ sep :: b) = splitOnChar sep a ++ splitOnChar sep b := by
  induction a with
  | nil => simp [splitOnChar, splitOnChar_cons_sep]
  | cons x a' ih =>
    by_cases hx : x == sep
    · simp [splitOnChar, hx, ih]
    · rcases hs : splitOnChar sep a' with _ | ⟨q, qs⟩
      · exact absurd hs (splitOnChar_ne_nil sep a')
      · simp [splitOnChar, hx, ih, hs, consHead]

/-- Joining the chunks of a split rebuilds the original list. -/
theorem joinSep_splitOnChar (sep : Char) (l : List Char) :
    joinSep sep (splitOnChar sep l) = l := by
  induction l with
  | nil => rfl
  | cons c cs ih =>
    rcases hs : splitOnChar sep cs with _ | ⟨q, qs⟩
    · exact absurd hs (splitOnChar_ne_nil sep cs)
    · rw [hs] at ih
      by_cases hc : c == sep
      · have hce : c = sep := eq_of_beq hc
        simp only [splitOnChar, hc, if_true, hs]
        cases qs with
        | nil => simp [joinSep, hce, ih.symm]
        | cons q' qs' => simp [joinSep, hce, ih.symm]
      · simp only [splitOnChar, hc, Bool.false_eq_true, if_false, hs, consHead]
        cases qs with
        | nil => simp [joinSep] at ih ⊢; rw [ih]
        | cons q' qs' =>
          simp only [joinSep] at ih ⊢
          rw [List.cons_append, ih]

/-- Folding the normalization step over segments that normalization keeps
appends them to the accumulator. -/
theorem foldl_normStep_good (segs : List (List Char)) (acc : List (List Char))
    (h : segs.all goodSeg = true) : List.foldl normStep acc segs = acc ++ segs := by
  induction segs generalizing acc with
  | nil => simp
  | cons s rest ih =>
    rw [List.all_cons, Bool.and_eq_true] at h
    obtain ⟨hs, hrest⟩ := h
    have hp : s ≠ [] ∧ s ≠ ['.'] ∧ s ≠ ['.', '.'] ∧ '/' ∉ s := by
      simpa [goodSeg] using hs
    have hstep : normStep acc s = acc ++ [s] := by
      simp only [normStep]
      rw [if_neg (not_or.mpr ⟨hp.1, hp.2.1⟩), if_neg hp.2.2.1]
    rw [List.foldl_cons, hstep, ih _ hrest, List.append_assoc]
    rfl

/-- Resolving the relative path consisting of a single dot against a
normalized absolute working directory returns that directory unchanged. -/
theorem pathResolve_dot (cwd : String) (h : isNormalizedAbs cwd = true) :
    pathResolve cwd "." = cwd := by
  obtain ⟨cs⟩ := cwd
  cases cs with
  | nil => simp [isNormalizedAbs] at h
  | cons c rest =>
    simp only [isNormalizedAbs, Bool.and_eq_true, beq_iff_eq] at h
    obtain ⟨hc, hsegs⟩ := h
    subst hc
    have key : resolveChars ('/' :: rest) ['.'] = '/' :: rest := by
      show '/' :: joinSep '/'
          (normalizeSegs (splitOnChar '/' (('/' :: rest) ++ '/' :: ['.']))) =
        '/' :: rest
      rw [List.cons_append, splitOnChar_cons_sep, splitOnChar_append]
      have h1 : splitOnChar '/' ['.'] = [['.']] := by decide
      rw [h1]
      show '/' :: joinSep '/'
          (List.foldl normStep []
            ([] :: (splitOnChar '/' rest ++ [['.']]))) = '/' :: rest
      have h2 : normStep [] ([] : List Char) = [] := by simp [normStep]
      rw [List.foldl_cons, h2, List.foldl_append, foldl_normStep_good _ _ hsegs]
      have h3 : ∀ acc : List (List Char), List.foldl normStep acc [['.']] = acc := by
        intro acc
        simp [normStep]
      rw [List.nil_append, h3, joinSep_splitOnChar]
    exact congrArg String.mk key

/-- Every resolved path is absolute. -/
theorem isAbs_pathResolve (cwd p : String) : isAbs (pathResolve cwd p) = true := rfl

/-- C1: for the configuration with project name demo, version 6.4, port 9090
and plugins query-monitor acf, the variable-assignment lines of the rendered
dotenv content are exactly the four interpolated settings followed by the
four fixed database lines, and nothing else. -/
theorem dotenv_demo_assignments :
    (dotEnvLines demoConfig).filter (fun l => isAssignLine l.data) =
      ["PROJECT_NAME=demo", "WP_VERSION=6.4", "WP_PORT=9090",
       "WP_PLUGINS=\"query-monitor acf\"",
       "MYSQL_DATABASE=wordpress", "MYSQL_USER=wordpress",
       "MYSQL_PASSWORD=your_strong_password",
       "MYSQL_ROOT_PASSWORD=your_strong_root_password"] := by decide

/-- C2 counterexample: with no flags given and a user who would answer custom
to every prompt, the resolver takes the prompt answer for the project name
but still resolves the plugin list to the empty string, because it never
prompts for plugins; so the flag-prompt-default order claimed for every
field fails for the plugin field. -/
theorem plugins_prompt_cex :
    (collectUserConfig promptCustom "/home/user" noFlags).wpPlugins = "" ∧
    (collectUserConfig promptCustom "/home/user" noFlags).projectName = "custom" ∧
    (("" : String) ≠ "custom") :=
  ⟨by decide, by decide, by decide⟩

/-- C2 amended: the project name, version and port are resolved as flag
value, else prompt answer (prompted with the documented default, which is
shown and used as fallback), else the hard-coded default; the plugin list is
resolved as flag value, else the empty string, with no prompt. -/
theorem config_resolution_amended (pr : String → String → Option String)
    (cwd : String) (args : Args) :
    ((collectUserConfig pr cwd args).projectName =
      match args.name with
      | some v => v
      | none =>
        ((pr "Enter project name:"
            (basename (pathResolve cwd
              ((args.positional.orElse fun _ => args.name).getD ".")))).getD
          (basename (pathResolve cwd
            ((args.positional.orElse fun _ => args.name).getD "."))))) ∧
    ((collectUserConfig pr cwd args).wpVersion =
      match args.version with
      | some v => v
      | none => ((pr "Enter WordPress version:" "latest").getD "latest")) ∧
    ((collectUserConfig pr cwd args).wpPort =
      match args.port with
      | some v => v
      | none => ((pr "Enter public port:" "8080").getD "8080")) ∧
    ((collectUserConfig pr cwd args).wpPlugins =
      match args.plugins with
      | some v => v
      | none => "") := by
  rcases args with ⟨pos, nm, ver, prt, plg, hlp⟩
  cases nm <;> cases ver <;> cases prt <;> cases plg <;>
    exact ⟨rfl, rfl, rfl, rfl⟩

/-- C3 counterexample: with no positional directory argument but the name
flag set to demo, the resolved project directory is the name flag resolved
against the working directory, not the working directory itself. -/
theorem projectDir_name_flag_cex :
    nameOnlyArgs.positional = none ∧
    (collectUserConfig promptNone "/home/user" nameOnlyArgs).projectDir =
      "/home/user/demo" ∧
    (("/home/user/demo" : String) ≠ "/home/user") :=
  ⟨rfl, by decide, by decide⟩

/-- C3 amended: with neither a positional argument nor a name flag the
project directory is the working directory; a positional argument is
resolved against the working directory into an absolute path; with only the
name flag, the name is resolved the same way; the result is always
absolute. -/
theorem projectDir_resolution_amended (pr : String → String → Option String)
    (cwd : String) (args : Args) (h : isNormalizedAbs cwd = true) :
    (args.positional = none → args.name = none →
      (collectUserConfig pr cwd args).projectDir = cwd) ∧
    (∀ d, args.positional = some d →
      (collectUserConfig pr cwd args).projectDir = pathResolve cwd d) ∧
    (∀ n, args.positional = none → args.name = some n →
      (collectUserConfig pr cwd args).projectDir = pathResolve cwd n) ∧
    isAbs (collectUserConfig pr cwd args).projectDir = true := by
  rcases args with ⟨pos, nm, ver, prt, plg, hlp⟩
  refine ⟨?_, ?_, ?_, ?_⟩
  · intro h1 h2
    simp only at h1 h2
    subst h1; subst h2
    exact pathResolve_dot cwd h
  · intro d hd
    simp only at hd
    subst hd
    rfl
  · intro n h1 h2
    simp only at h1 h2
    subst h1; subst h2
    rfl
  · rfl

/-- Witness for the amended C3 theorem at a concrete invocation giving a
positional argument. -/
theorem projectDir_resolution_amended_witness :
    isNormalizedAbs "/home/user" = true ∧
    (collectUserConfig promptNone "/home/user" posOnlyArgs).projectDir =
      pathResolve "/home/user" "proj" :=
  ⟨by decide,
   (projectDir_resolution_amended promptNone "/home/user" posOnlyArgs
      (by decide)).2.1 "proj" rfl⟩

/-- C4: in every run whose event list records a failed file write, the exit
code is non-zero and no chmod invocation is recorded, so the permission
grant never runs when any of the five writes failed. -/
theorem write_failure_no_chmod (md wr : String → Bool) (ch : Bool)
    (pr : String → String → Option String) (cwd : String) (args : Args)
    (f : String)
    (hw : Event.write f false ∈ (runMain md wr ch pr cwd args).events) :
    (runMain md wr ch pr cwd args).exitCode ≠ 0 ∧
    ∀ (g : String) (b : Bool),
      Event.chmod g b ∉ (runMain md wr ch pr cwd args).events := by
  cases hh : args.help
  case true => simp [runMain, hh] at hw
  case false =>
    cases h1 : md (pathJoin (collectUserConfig pr cwd args).projectDir ".pon")
    case false => simp [runMain, hh, h1] at hw
    case true =>
      cases h2 : md (pathJoin (collectUserConfig pr cwd args).projectDir "src")
      case false => simp [runMain, hh, h1, h2] at hw
      case true =>
        cases h3 : (filesToCreate (collectUserConfig pr cwd args)).all fun fd => wr fd.name
        case true =>
          exfalso
          simp [runMain, hh, h1, h2, h3] at hw
          obtain ⟨fd, hfd, hname, hfalse⟩ := hw
          have htrue := List.all_eq_true.mp h3 fd hfd
          simp only at htrue
          rw [hfalse] at htrue
          exact Bool.false_ne_true htrue
        case false =>
          constructor
          · simp [runMain, hh, h1, h2, h3]
          · intro g b
            simp [runMain, hh, h1, h2, h3]

/-- Witness for the C4 theorem at a run where only the dotenv write fails. -/
theorem write_failure_no_chmod_witness :
    (runMain mdAll wrFailEnv true promptNone "/home/user" noFlags).exitCode ≠ 0 ∧
    Event.chmod "/home/user/.pon/init-plugins.sh" true ∉
      (runMain mdAll wrFailEnv true promptNone "/home/user" noFlags).events :=
  ⟨(write_failure_no_chmod mdAll wrFailEnv true promptNone "/home/user" noFlags
      "/home/user/.env" (by decide)).1,
   (write_failure_no_chmod mdAll wrFailEnv true promptNone "/home/user" noFlags
      "/home/user/.env" (by decide)).2 "/home/user/.pon/init-plugins.sh" true⟩

/-- C5: rendering is deterministic; evaluating the renderer on equal
configurations yields identical name and content for every one of the five
output files. -/
theorem render_deterministic (c₁ c₂ : ResolvedConfig) (h : c₁ = c₂) :
    filesToCreate c₁ = filesToCreate c₂ := by rw [h]

/-- Witness for the C5 theorem at the demonstration configuration. -/
theorem render_deterministic_witness :
    filesToCreate demoResolved = filesToCreate demoResolved :=
  render_deterministic demoResolved demoResolved rfl

/-- C6: for every configuration, the rendered contents of the last four
output files are the four fixed template constants, so any two
configurations render them identically. -/
theorem static_templates_fixed (c : ResolvedConfig) :
    ((filesToCreate c).map FileDefinition.content).drop 1 =
      [dockerComposeTemplate, initPluginsScriptTemplate, uploadsIniTemplate,
       timeoutsConfTemplate] := rfl

/-- C8: the emitted docker-compose content is the fixed template constant for
every configuration, and that constant contains the container-tool variable
references as literal unsubstituted text. -/
theorem compose_placeholders_literal :
    (∀ c : ResolvedConfig,
      ((filesToCreate c).map FileDefinition.content)[1]? =
        some dockerComposeTemplate) ∧
    occursIn "$\x7bPROJECT_NAME\x7d".data dockerComposeTemplate.data = true ∧
    occursIn "$\x7bWP_VERSION:-latest\x7d".data dockerComposeTemplate.data = true ∧
    occursIn "$\x7bWP_PORT:-8080\x7d".data dockerComposeTemplate.data = true ∧
    occursIn "$\x7bWP_PLUGINS\x7d".data dockerComposeTemplate.data = true :=
  ⟨fun _ => rfl, by decide, by decide, by decide, by decide⟩

/-- C7 counterexample: with no positional argument and no name flag but an
interactive user answering custom, the resolved project name is the prompt
answer, not the basename of the working directory. -/
theorem projectName_prompt_cex :
    (collectUserConfig promptCustom "/home/user" noFlags).projectName = "custom" ∧
    basename "/home/user" = "user" ∧
    (("custom" : String) ≠ "user") :=
  ⟨by decide, by decide, by decide⟩

/-- C7 amended: in a run where neither a positional directory argument nor a
name flag is given and the project-name prompt goes unanswered, the resolved
project name is the basename of the working directory, which is also the
default the prompt shows. -/
theorem projectName_default_amended (pr : String → String → Option String)
    (cwd : String) (args : Args) (h : isNormalizedAbs cwd = true)
    (hp : args.positional = none) (hn : args.name = none)
    (hq : pr "Enter project name:" (basename cwd) = none) :
    (collectUserConfig pr cwd args).projectName = basename cwd := by
  rcases args with ⟨pos, nm, ver, prt, plg, hlp⟩
  simp only at hp hn
  subst hp; subst hn
  show (pr "Enter project name:" (basename (pathResolve cwd "."))).getD
      (basename (pathResolve cwd ".")) = basename cwd
  rw [pathResolve_dot cwd h, hq]
  rfl

/-- Witness for the amended C7 theorem at a non-interactive run. -/
theorem projectName_default_amended_witness :
    (collectUserConfig promptNone "/home/user" noFlags).projectName =
      basename "/home/user" :=
  projectName_default_amended promptNone "/home/user" noFlags (by decide)
    rfl rfl rfl

/-- C9: a run invoked with the help flag prints the usage text, exits with
code zero, and performs no directory creation, file write or chmod
invocation. -/
theorem help_no_side_effects (md wr : String → Bool) (ch : Bool)
    (pr : String → String → Option String) (cwd : String) (args : Args)
    (h : args.help = true) :
    (runMain md wr ch pr cwd args).exitCode = 0 ∧
    (runMain md wr ch pr cwd args).events = [Event.print helpText] := by
  simp [runMain, h]

/-- Witness for the C9 theorem at a concrete help invocation. -/
theorem help_no_side_effects_witness :
    (runMain mdAll wrAll true promptNone "/home/user" helpArgs).exitCode = 0 ∧
    (runMain mdAll wrAll true promptNone "/home/user" helpArgs).events =
      [Event.print helpText] :=
  help_no_side_effects mdAll wrAll true promptNone "/home/user" helpArgs rfl

/-- C10: the two source variants render the dotenv file identically for every
configuration. -/
theorem dotenv_variants_agree (c : EnvConfig) :
    MainTs.createDotEnvTemplate c = createDotEnvTemplate c := rfl

end WpPon
